import Mathlib

/-!
# Sub Group Creation Tool: client-side form script

A shallow embedding of `src/sub_group_creation_tool.js`: the three form event
handlers `main_group`, `get_students_btn` and `clear_students_btn`, their
success callbacks, and the framework operations they invoke.

The form object `frm` is a record of the current document together with an
append-only log of the framework operations issued on it, so that "which
calls were made" and "which fields were refreshed" are observable.
-/

namespace SubGroupCreationTool

/-! ## Data model -/

/-- A JavaScript value as carried by a field of a student record. -/
inductive JsVal where
  | undefined
  | null
  | bool (b : Bool)
  | num (n : Int)
  | str (s : String)
  deriving DecidableEq, Repr

/-- The value of a link field of the document (`main_group`, `program`,
`academic_year`, `academic_term`): a document name, or unset. -/
inductive LinkVal where
  | undefined
  | null
  | str (s : String)
  deriving DecidableEq, Repr

/-- JavaScript truthiness of a link field value, as tested by
`if (frm.doc.main_group)`: only a non-empty string is truthy. -/
def LinkVal.truthy : LinkVal → Bool
  | LinkVal.undefined => false
  | LinkVal.null => false
  | LinkVal.str s => s != ""

/-- One student record `d` of the `fetch_students` response. -/
structure StudentRecord where
  student : JsVal
  student_name : JsVal
  active : JsVal
  deriving DecidableEq, Repr

/-- One row of the `students` child table. -/
structure Row where
  student : JsVal
  student_name : JsVal
  active : JsVal
  deriving DecidableEq, Repr

/-- The form document `frm.doc`. -/
structure Doc where
  main_group : LinkVal
  program : LinkVal
  academic_year : LinkVal
  academic_term : LinkVal
  students : List Row
  deriving DecidableEq, Repr

/-- The `message` of a response `r`: absent (`undefined` or `null`) or an
ordered array of student records. -/
inductive Message where
  | undefined
  | null
  | array (ds : List StudentRecord)
  deriving DecidableEq, Repr

/-- JavaScript truthiness of `r.message`: every array is truthy, the empty
one included; `undefined` and `null` are falsy. -/
def Message.truthy : Message → Bool
  | Message.undefined => false
  | Message.null => false
  | Message.array _ => true

/-- The expression `(r.message || [])`: the message itself when truthy, the
empty array otherwise. -/
def Message.orEmpty (m : Message) : List StudentRecord :=
  match m with
  | Message.array ds => if m.truthy then ds else []
  | _ => []

/-- The response object `r` handed to a success callback. -/
structure Response where
  message : Message
  deriving DecidableEq, Repr

/-- A framework operation issued on the form. -/
inductive Op where
  | call (method : String) (doc : Doc) (freeze : Bool)
  | refresh_fields (fields : List String)
  | refresh_field (field : String)
  | clear_table (field : String)
  | add_child (field : String)
  deriving DecidableEq, Repr

/-- Whether an operation is a remote call. -/
def Op.isCall : Op → Bool
  | Op.call _ _ _ => true
  | _ => false

/-- Whether an operation re-renders fields. -/
def Op.isRefresh : Op → Bool
  | Op.refresh_fields _ => true
  | Op.refresh_field _ => true
  | _ => false

/-- Whether an operation removes or appends rows of a child table. -/
def Op.isRowOp : Op → Bool
  | Op.clear_table _ => true
  | Op.add_child _ => true
  | _ => false

/-- The form object `frm`: the current document and the log of framework
operations issued so far (oldest first). -/
structure Frm where
  doc : Doc
  ops : List Op
  deriving DecidableEq, Repr

/-- The options object passed to `frm.call`. -/
structure CallOpts where
  method : String
  doc : Doc
  freeze : Bool
  callback : Response → Frm → Frm

/-- A reference to a row of a child table, as returned by `frm.add_child`. -/
structure RowRef where
  table : String
  idx : Nat
  deriving DecidableEq, Repr

/-! ## Framework operations used by the script -/

/-- The rows of the child table named `f`; the document has one child table,
`students`. -/
def Doc.table (d : Doc) (f : String) : List Row :=
  if f = "students" then d.students else []

/-- Replace the rows of the child table named `f`. -/
def Doc.setTable (d : Doc) (f : String) (rows : List Row) : Doc :=
  if f = "students" then { d with students := rows } else d

/-- Apply `upd` to the element at position `i`, if there is one. -/
def updateNth (upd : Row → Row) : Nat → List Row → List Row
  | _, [] => []
  | 0, x :: xs => upd x :: xs
  | i + 1, x :: xs => x :: updateNth upd i xs

/-- Modelled from the spec: the framework operation `frm.call(opts)`, which
issues one remote call of `opts.method` on `opts.doc` and registers
`opts.callback` to run when the call succeeds. -/
def Frm.call (opts : CallOpts) (frm : Frm) : Frm × List CallOpts :=
  ({ frm with ops := frm.ops ++ [Op.call opts.method opts.doc opts.freeze] }, [opts])

/-- Modelled from the spec: the framework operation `frm.refresh_fields`,
which marks the listed fields for re-display. -/
def Frm.refresh_fields (fields : List String) (frm : Frm) : Frm :=
  { frm with ops := frm.ops ++ [Op.refresh_fields fields] }

/-- Modelled from the spec: the framework operation `frm.refresh_field`,
which re-renders one field. -/
def Frm.refresh_field (field : String) (frm : Frm) : Frm :=
  { frm with ops := frm.ops ++ [Op.refresh_field field] }

/-- Modelled from the spec: the framework operation `frm.clear_table`, which
removes all existing rows of a child table. -/
def Frm.clear_table (field : String) (frm : Frm) : Frm :=
  { doc := frm.doc.setTable field [], ops := frm.ops ++ [Op.clear_table field] }

/-- Modelled from the spec: the framework operation `frm.add_child`, which
appends one new row (holding the row defaults `dflt`) to a child table and
returns a reference to it. -/
def Frm.add_child (dflt : Row) (field : String) (frm : Frm) : Frm × RowRef :=
  ({ doc := frm.doc.setTable field (frm.doc.table field ++ [dflt]),
     ops := frm.ops ++ [Op.add_child field] },
   { table := field, idx := (frm.doc.table field).length })

/-- A property assignment on a row object, `row.p = v`: the row lives in the
table, so the table sees the change. -/
def Frm.assign (row : RowRef) (upd : Row → Row) (frm : Frm) : Frm :=
  { doc := frm.doc.setTable row.table (updateNth upd row.idx (frm.doc.table row.table)),
    ops := frm.ops }

/-! ## The script -/

/-- The success callback of the `main_group` handler. -/
def main_group_callback (_r : Response) (frm : Frm) : Frm :=
  frm.refresh_fields ["program", "academic_year", "academic_term"]

/-- The handler of the `main_group` field event. -/
def main_group (frm : Frm) : Frm × List CallOpts :=
  if frm.doc.main_group.truthy then
    frm.call
      { method := "load_main_group_details"
        doc := frm.doc
        freeze := true
        callback := main_group_callback }
  else
    (frm, [])

/-- The body of the `forEach` in the `get_students_btn` callback, for one
record `d`. -/
def add_student_row (dflt : Row) (frm : Frm) (d : StudentRecord) : Frm :=
  let res := frm.add_child dflt "students"
  let row := res.2
  let frm1 := res.1.assign row (fun x => { x with student := d.student })
  let frm2 := frm1.assign row (fun x => { x with student_name := d.student_name })
  frm2.assign row (fun x => { x with active := d.active })

/-- The success callback of the `get_students_btn` handler. -/
def get_students_callback (dflt : Row) (r : Response) (frm : Frm) : Frm :=
  if r.message.truthy then
    let frm1 := frm.clear_table "students"
    let frm2 := r.message.orEmpty.foldl (add_student_row dflt) frm1
    frm2.refresh_field "students"
  else
    frm

/-- The handler of the `get_students_btn` button. -/
def get_students_btn (dflt : Row) (frm : Frm) : Frm × List CallOpts :=
  frm.call
    { method := "fetch_students"
      doc := frm.doc
      freeze := true
      callback := get_students_callback dflt }

/-- The success callback of the `clear_students_btn` handler. -/
def clear_students_callback (_r : Response) (frm : Frm) : Frm :=
  frm.refresh_field "students"

/-- The handler of the `clear_students_btn` button. -/
def clear_students_btn (frm : Frm) : Frm × List CallOpts :=
  frm.call
    { method := "clear_students"
      doc := frm.doc
      freeze := true
      callback := clear_students_callback }

/-! ## Remote calls and events -/

/-- How a remote call ends: it fails (the success callback is never
invoked), or it succeeds with the document as the server left it and a
response. -/
inductive Outcome where
  | failure
  | success (doc : Doc) (r : Response)
  deriving DecidableEq, Repr

/-- Modelled from the spec: the call layer of the framework settling one
issued call against a server: on success the document as mutated server-side
becomes the form document and the callback runs; on failure nothing runs. -/
def settle (server : String → Doc → Outcome) (frm : Frm) (opts : CallOpts) : Frm :=
  match server opts.method opts.doc with
  | Outcome.failure => frm
  | Outcome.success doc r => opts.callback r { frm with doc := doc }

/-- One user-triggered event: the handler runs to completion, then every
call it issued is settled. -/
def fire (handler : Frm → Frm × List CallOpts) (server : String → Doc → Outcome)
    (frm : Frm) : Frm :=
  (handler frm).2.foldl (settle server) (handler frm).1

/-- Modelled from the spec: the server-side procedure `clear_students` of
the tool, which empties the `students` table of the document as a side
effect and returns no payload. -/
def clear_students_server (doc : Doc) : Outcome :=
  Outcome.success { doc with students := [] } { message := Message.undefined }

/-- The row that copies the three fields of a record verbatim. -/
def rowOf (d : StudentRecord) : Row :=
  { student := d.student, student_name := d.student_name, active := d.active }

/-- The number of remote calls in a log of operations. -/
def callCount (ops : List Op) : Nat :=
  (ops.filter Op.isCall).length

/-! ## Concrete inputs -/

/-- The record `{student: "S1", student_name: "Alice", active: true}`. -/
def exAlice : StudentRecord :=
  { student := JsVal.str "S1", student_name := JsVal.str "Alice", active := JsVal.bool true }

/-- The record `{student: "S2", student_name: "Bob", active: false}`. -/
def exBob : StudentRecord :=
  { student := JsVal.str "S2", student_name := JsVal.str "Bob", active := JsVal.bool false }

/-- An unrelated row already in the table. -/
def exOldRow : Row :=
  { student := JsVal.str "S0", student_name := JsVal.str "Zoe", active := JsVal.bool true }

/-- A new row with no defaults set. -/
def exBlank : Row :=
  { student := JsVal.undefined, student_name := JsVal.undefined, active := JsVal.undefined }

/-- A form with main group `G1` whose table holds one unrelated row. -/
def exFrm : Frm :=
  { doc :=
      { main_group := LinkVal.str "G1"
        program := LinkVal.str "P1"
        academic_year := LinkVal.str "2025"
        academic_term := LinkVal.null
        students := [exOldRow] }
    ops := [] }

/-- A form with no main group selected. -/
def exFrmNoGroup : Frm :=
  { doc :=
      { main_group := LinkVal.str ""
        program := LinkVal.null
        academic_year := LinkVal.null
        academic_term := LinkVal.null
        students := [exOldRow] }
    ops := [] }

/-- A server on which every call fails. -/
def exFailingServer : String → Doc → Outcome :=
  fun _ _ => Outcome.failure

/-- A server whose `clear_students` is the modelled procedure and whose other
procedures fail. -/
def exServer : String → Doc → Outcome :=
  fun m d => if m = "clear_students" then clear_students_server d else Outcome.failure

/-! ## Auxiliary facts about the framework operations -/

theorem updateNth_length_append (upd : Row → Row) (xs : List Row) (x : Row) :
    updateNth upd xs.length (xs ++ [x]) = xs ++ [upd x] := by
  induction xs with
  | nil => rfl
  | cons y ys ih => simp [updateNth, ih]

theorem add_student_row_eq (dflt : Row) (frm : Frm) (d : StudentRecord) :
    add_student_row dflt frm d =
      { doc := { frm.doc with students := frm.doc.students ++ [rowOf d] },
        ops := frm.ops ++ [Op.add_child "students"] } := by
  simp [add_student_row, Frm.add_child, Frm.assign, Doc.setTable, Doc.table,
    updateNth_length_append, rowOf]

theorem foldl_add_student_row (dflt : Row) (ds : List StudentRecord) (frm : Frm) :
    ds.foldl (add_student_row dflt) frm =
      { doc := { frm.doc with students := frm.doc.students ++ ds.map rowOf },
        ops := frm.ops ++ List.replicate ds.length (Op.add_child "students") } := by
  induction ds generalizing frm with
  | nil => simp
  | cons d ds ih =>
    rw [List.foldl_cons, ih, add_student_row_eq]
    simp [List.replicate_succ]

theorem get_students_callback_array (dflt : Row) (ds : List StudentRecord) (frm : Frm) :
    get_students_callback dflt { message := Message.array ds } frm =
      { doc := { frm.doc with students := ds.map rowOf },
        ops := frm.ops ++ Op.clear_table "students" ::
          List.replicate ds.length (Op.add_child "students") ++ [Op.refresh_field "students"] } := by
  simp [get_students_callback, Message.truthy, Message.orEmpty, foldl_add_student_row,
    Frm.clear_table, Frm.refresh_field, Doc.setTable]

theorem get_students_callback_undefined (dflt : Row) (frm : Frm) :
    get_students_callback dflt { message := Message.undefined } frm = frm := by
  simp [get_students_callback, Message.truthy]

theorem get_students_callback_null (dflt : Row) (frm : Frm) :
    get_students_callback dflt { message := Message.null } frm = frm := by
  simp [get_students_callback, Message.truthy]

theorem callCount_append (xs ys : List Op) :
    callCount (xs ++ ys) = callCount xs + callCount ys := by
  simp [callCount, List.filter_append]

theorem filter_isCall_replicate_add_child (n : Nat) (f : String) :
    (List.replicate n (Op.add_child f)).filter Op.isCall = [] := by
  induction n with
  | zero => rfl
  | succ n ih => simp [List.replicate_succ, Op.isCall, ih]

theorem filter_isRefresh_replicate_add_child (n : Nat) (f : String) :
    (List.replicate n (Op.add_child f)).filter Op.isRefresh = [] := by
  induction n with
  | zero => rfl
  | succ n ih => simp [List.replicate_succ, Op.isRefresh, ih]

theorem get_students_callback_callCount (dflt : Row) (r : Response) (frm : Frm) :
    callCount (get_students_callback dflt r frm).ops = callCount frm.ops := by
  obtain ⟨m⟩ := r
  cases m with
  | undefined => rw [get_students_callback_undefined]
  | null => rw [get_students_callback_null]
  | array ds =>
    rw [get_students_callback_array]
    simp [callCount, List.filter_append, List.filter_cons, Op.isCall,
      filter_isCall_replicate_add_child]

/-! ## The `get_students_btn` callback -/

/-- C1: for every prior table and every non-empty payload `ds`, after the
`get_students_btn` callback the `students` table has exactly as many rows as
`ds`, its i-th row carries the `student`, `student_name` and `active` of the
i-th record, and the table is exactly the records copied in response order,
so no prior row remains. -/
theorem get_students_callback_replaces_table (dflt : Row) (frm : Frm)
    (ds : List StudentRecord) (_hne : ds ≠ []) :
    (get_students_callback dflt { message := Message.array ds } frm).doc.students.length
        = ds.length ∧
    (∀ (i : Nat) (d : StudentRecord), ds[i]? = some d →
      (get_students_callback dflt { message := Message.array ds } frm).doc.students[i]?
        = some ({ student := d.student, student_name := d.student_name,
                  active := d.active } : Row)) ∧
    (get_students_callback dflt { message := Message.array ds } frm).doc.students
        = ds.map (fun d =>
            ({ student := d.student, student_name := d.student_name,
               active := d.active } : Row)) := by
  rw [get_students_callback_array]
  refine ⟨by simp, ?_, rfl⟩
  intro i d hd
  simp [List.getElem?_map, hd, rowOf]

/-- C1 at the payload `[S1 Alice true, S2 Bob false]` over a table holding one
unrelated row: exactly those two rows, in that order. -/
theorem get_students_callback_replaces_table_witness :
    [exAlice, exBob] ≠ [] ∧
    (get_students_callback exBlank { message := Message.array [exAlice, exBob] } exFrm).doc.students
      = [{ student := JsVal.str "S1", student_name := JsVal.str "Alice", active := JsVal.bool true },
         { student := JsVal.str "S2", student_name := JsVal.str "Bob", active := JsVal.bool false }] :=
  ⟨by simp, (get_students_callback_replaces_table exBlank exFrm [exAlice, exBob] (by simp)).2.2⟩

/-- C2 as stated fails: on an empty array payload the callback clears a table
that held one row. -/
theorem get_students_callback_empty_array_not_unchanged :
    exFrm.doc.students = [exOldRow] ∧
    (get_students_callback exBlank { message := Message.array [] } exFrm).doc.students = [] ∧
    ¬ (∀ (dflt : Row) (frm : Frm) (m : Message),
        (m = Message.array [] ∨ m = Message.null ∨ m = Message.undefined) →
        (get_students_callback dflt { message := m } frm).doc.students = frm.doc.students) := by
  refine ⟨rfl, by rw [get_students_callback_array]; rfl, ?_⟩
  intro h
  have h1 := h exBlank exFrm (Message.array []) (Or.inl rfl)
  rw [get_students_callback_array] at h1
  simp [exFrm] at h1

/-- C2 amended: on an absent payload (`undefined` or `null`) the table keeps
the same rows in the same order; on an empty array payload the callback
clears the table, which then holds no rows. -/
theorem get_students_callback_absent_or_empty (dflt : Row) (frm : Frm) :
    (get_students_callback dflt { message := Message.undefined } frm).doc.students
        = frm.doc.students ∧
    (get_students_callback dflt { message := Message.null } frm).doc.students
        = frm.doc.students ∧
    (get_students_callback dflt { message := Message.array [] } frm).doc.students = [] := by
  rw [get_students_callback_undefined, get_students_callback_null, get_students_callback_array]
  exact ⟨rfl, rfl, rfl⟩

/-- C3 as stated fails: on an absent payload the records of the response are
the empty sequence, yet the table keeps its prior row. -/
theorem get_students_callback_absent_not_reflected :
    Message.undefined.orEmpty = [] ∧
    (get_students_callback exBlank { message := Message.undefined } exFrm).doc.students
        = [exOldRow] ∧
    ¬ (∀ (dflt : Row) (frm : Frm) (m : Message),
        (get_students_callback dflt { message := m } frm).doc.students
          = m.orEmpty.map (fun d =>
              ({ student := d.student, student_name := d.student_name,
                 active := d.active } : Row))) := by
  refine ⟨rfl, by rw [get_students_callback_undefined]; rfl, ?_⟩
  intro h
  have h1 := h exBlank exFrm Message.undefined
  rw [get_students_callback_undefined] at h1
  simp [exFrm, Message.orEmpty] at h1

/-- C3 amended: when the payload is present (an array, the empty one
included) the table after the callback equals the records of that response,
old rows discarded and never merged; when the payload is absent the table
keeps its prior rows. -/
theorem get_students_callback_reflects_present (dflt : Row) (frm : Frm) (m : Message) :
    (get_students_callback dflt { message := m } frm).doc.students
      = if m.truthy then
          m.orEmpty.map (fun d =>
            ({ student := d.student, student_name := d.student_name,
               active := d.active } : Row))
        else frm.doc.students := by
  cases m with
  | undefined => rw [get_students_callback_undefined]; rfl
  | null => rw [get_students_callback_null]; rfl
  | array ds => rw [get_students_callback_array]; simp [Message.truthy, Message.orEmpty, rowOf]

/-- C10: the `get_students_btn` callback leaves `main_group`, `program`,
`academic_year` and `academic_term` as they were; when the message is an
array it issues one `clear_table`, one `add_child` per record and then one
single refresh of `students`; when the message is absent it issues nothing
and changes nothing. -/
theorem get_students_callback_frame (dflt : Row) (frm : Frm) :
    (∀ r : Response,
      (get_students_callback dflt r frm).doc.main_group = frm.doc.main_group ∧
      (get_students_callback dflt r frm).doc.program = frm.doc.program ∧
      (get_students_callback dflt r frm).doc.academic_year = frm.doc.academic_year ∧
      (get_students_callback dflt r frm).doc.academic_term = frm.doc.academic_term) ∧
    (∀ ds : List StudentRecord,
      (get_students_callback dflt { message := Message.array ds } frm).ops
        = frm.ops ++ Op.clear_table "students" ::
            List.replicate ds.length (Op.add_child "students")
            ++ [Op.refresh_field "students"] ∧
      ((get_students_callback dflt { message := Message.array ds } frm).ops.drop
          frm.ops.length).filter Op.isRefresh = [Op.refresh_field "students"]) ∧
    get_students_callback dflt { message := Message.undefined } frm = frm ∧
    get_students_callback dflt { message := Message.null } frm = frm := by
  refine ⟨?_, ?_, get_students_callback_undefined dflt frm, get_students_callback_null dflt frm⟩
  · rintro ⟨m⟩
    cases m with
    | undefined => rw [get_students_callback_undefined]; simp
    | null => rw [get_students_callback_null]; simp
    | array ds => rw [get_students_callback_array]; simp
  · intro ds
    rw [get_students_callback_array]
    refine ⟨rfl, ?_⟩
    simp [List.filter_append, List.filter_cons, Op.isRefresh,
      filter_isRefresh_replicate_add_child]

/-! ## The `main_group` handler -/

/-- C4: when `main_group` is empty (empty string, `null` or `undefined`) the
`main_group` handler issues no remote call and performs no other action: it
returns the form as it was with no call registered, and the whole event
leaves the form unchanged whatever the server is. -/
theorem main_group_empty_no_action (frm : Frm)
    (hempty : frm.doc.main_group = LinkVal.str "" ∨ frm.doc.main_group = LinkVal.null ∨
      frm.doc.main_group = LinkVal.undefined) :
    main_group frm = (frm, []) ∧
    (main_group frm).1.ops = frm.ops ∧
    (main_group frm).1.doc = frm.doc ∧
    (∀ server : String → Doc → Outcome, fire main_group server frm = frm) := by
  have ht : frm.doc.main_group.truthy = false := by
    rcases hempty with h | h | h <;> rw [h] <;> simp [LinkVal.truthy]
  have hm : main_group frm = (frm, []) := by simp [main_group, ht]
  refine ⟨hm, by rw [hm], by rw [hm], ?_⟩
  intro server
  simp [fire, hm]

/-- C4 at a form whose `main_group` is the empty string. -/
theorem main_group_empty_no_action_witness :
    (exFrmNoGroup.doc.main_group = LinkVal.str "" ∨ exFrmNoGroup.doc.main_group = LinkVal.null ∨
      exFrmNoGroup.doc.main_group = LinkVal.undefined) ∧
    main_group exFrmNoGroup = (exFrmNoGroup, []) :=
  ⟨Or.inl rfl, (main_group_empty_no_action exFrmNoGroup (Or.inl rfl)).1⟩

/-- C5: when `main_group` is non-empty the handler issues exactly the call
`load_main_group_details` on the current document with freeze enabled; its
callback, whatever the response, appends one refresh of exactly `program`,
`academic_year`, `academic_term` and leaves the document (the `students`
table included) as it is; so a successful event issues the call and then
that refresh once. -/
theorem main_group_set_loads_details (frm : Frm)
    (hset : frm.doc.main_group ≠ LinkVal.str "" ∧ frm.doc.main_group ≠ LinkVal.null ∧
      frm.doc.main_group ≠ LinkVal.undefined) :
    (main_group frm).1 =
      { doc := frm.doc,
        ops := frm.ops ++ [Op.call "load_main_group_details" frm.doc true] } ∧
    (main_group frm).2.map (fun o => (o.method, o.doc, o.freeze))
      = [("load_main_group_details", frm.doc, true)] ∧
    (∀ o ∈ (main_group frm).2, ∀ (r : Response) (f : Frm),
      o.callback r f =
        { doc := f.doc,
          ops := f.ops ++ [Op.refresh_fields ["program", "academic_year", "academic_term"]] }) ∧
    (∀ (server : String → Doc → Outcome) (doc : Doc) (r : Response),
      server "load_main_group_details" frm.doc = Outcome.success doc r →
      fire main_group server frm =
        { doc := doc,
          ops := frm.ops ++ [Op.call "load_main_group_details" frm.doc true,
            Op.refresh_fields ["program", "academic_year", "academic_term"]] }) := by
  have ht : frm.doc.main_group.truthy = true := by
    obtain ⟨h1, h2, h3⟩ := hset
    cases hg : frm.doc.main_group with
    | undefined => exact absurd hg h3
    | null => exact absurd hg h2
    | str s =>
      rw [hg] at h1
      have hs : s ≠ "" := fun h => h1 (by rw [h])
      simp [LinkVal.truthy, hs]
  refine ⟨?_, ?_, ?_, ?_⟩
  · simp [main_group, ht, Frm.call]
  · simp [main_group, ht, Frm.call]
  · intro o ho r f
    simp [main_group, ht, Frm.call] at ho
    subst ho
    rfl
  · intro server doc r hs
    simp [fire, main_group, ht, Frm.call, settle, hs, main_group_callback, Frm.refresh_fields]

/-- C5 at a form whose `main_group` is `G1`. -/
theorem main_group_set_loads_details_witness :
    (exFrm.doc.main_group ≠ LinkVal.str "" ∧ exFrm.doc.main_group ≠ LinkVal.null ∧
      exFrm.doc.main_group ≠ LinkVal.undefined) ∧
    (main_group exFrm).1 =
      { doc := exFrm.doc,
        ops := exFrm.ops ++ [Op.call "load_main_group_details" exFrm.doc true] } :=
  ⟨by simp [exFrm], (main_group_set_loads_details exFrm (by simp [exFrm])).1⟩

/-! ## The `clear_students_btn` handler -/

/-- C6: the `clear_students_btn` handler issues exactly the call
`clear_students` on the current document; its callback appends one refresh
of `students` and nothing else (no `clear_table`, no row operation), leaving
the document as it is; so after a successful event the document is the one
the server call left and the only client operations are the call and that
refresh. -/
theorem clear_students_btn_only_refreshes (frm : Frm) :
    (clear_students_btn frm).1 =
      { doc := frm.doc, ops := frm.ops ++ [Op.call "clear_students" frm.doc true] } ∧
    (clear_students_btn frm).2.map (fun o => (o.method, o.doc, o.freeze))
      = [("clear_students", frm.doc, true)] ∧
    (∀ o ∈ (clear_students_btn frm).2, ∀ (r : Response) (f : Frm),
      o.callback r f = { doc := f.doc, ops := f.ops ++ [Op.refresh_field "students"] }) ∧
    (∀ (server : String → Doc → Outcome) (doc : Doc) (r : Response),
      server "clear_students" frm.doc = Outcome.success doc r →
      fire clear_students_btn server frm =
        { doc := doc,
          ops := frm.ops ++ [Op.call "clear_students" frm.doc true,
            Op.refresh_field "students"] }) := by
  refine ⟨rfl, rfl, ?_, ?_⟩
  · intro o ho r f
    simp [clear_students_btn, Frm.call] at ho
    subst ho
    rfl
  · intro server doc r hs
    simp [fire, clear_students_btn, Frm.call, settle, hs, clear_students_callback,
      Frm.refresh_field]

/-- C7: when the server-side `clear_students` is the procedure the spec
describes, after the "Clear Students" event (handler and callback) the
`students` table of the form is empty. -/
theorem clear_students_event_empties_table (server : String → Doc → Outcome) (frm : Frm)
    (hserver : server "clear_students" frm.doc = clear_students_server frm.doc) :
    (fire clear_students_btn server frm).doc.students = [] := by
  simp [fire, clear_students_btn, Frm.call, settle, hserver, clear_students_server,
    clear_students_callback, Frm.refresh_field]

/-- C7 at a form whose table holds one row. -/
theorem clear_students_event_empties_table_witness :
    exServer "clear_students" exFrm.doc = clear_students_server exFrm.doc ∧
    exFrm.doc.students = [exOldRow] ∧
    (fire clear_students_btn exServer exFrm).doc.students = [] :=
  ⟨by simp [exServer], rfl,
    clear_students_event_empties_table exServer exFrm (by simp [exServer])⟩

/-! ## All three handlers -/

/-- C8: when the remote call fails, so that no success callback runs, each
of the three events leaves the document as it was and adds nothing to the
log but the call itself: no refresh, no `clear_table`, no `add_child`. -/
theorem failed_call_leaves_state (dflt : Row) (server : String → Doc → Outcome) (frm : Frm)
    (hfail : ∀ (m : String) (d : Doc), server m d = Outcome.failure) :
    (fire main_group server frm).doc = frm.doc ∧
    (fire main_group server frm).ops = frm.ops ++
      (if frm.doc.main_group.truthy then [Op.call "load_main_group_details" frm.doc true]
       else []) ∧
    fire (get_students_btn dflt) server frm =
      { doc := frm.doc, ops := frm.ops ++ [Op.call "fetch_students" frm.doc true] } ∧
    fire clear_students_btn server frm =
      { doc := frm.doc, ops := frm.ops ++ [Op.call "clear_students" frm.doc true] } := by
  refine ⟨?_, ?_, ?_, ?_⟩
  · cases ht : frm.doc.main_group.truthy <;> simp [fire, main_group, ht, Frm.call, settle, hfail]
  · cases ht : frm.doc.main_group.truthy <;> simp [fire, main_group, ht, Frm.call, settle, hfail]
  · simp [fire, get_students_btn, Frm.call, settle, hfail]
  · simp [fire, clear_students_btn, Frm.call, settle, hfail]

/-- C8 at a form holding one row, on a server where every call fails. -/
theorem failed_call_leaves_state_witness :
    (∀ (m : String) (d : Doc), exFailingServer m d = Outcome.failure) ∧
    fire (get_students_btn exBlank) exFailingServer exFrm =
      { doc := exFrm.doc, ops := exFrm.ops ++ [Op.call "fetch_students" exFrm.doc true] } :=
  ⟨fun _ _ => rfl,
    (failed_call_leaves_state exBlank exFailingServer exFrm (fun _ _ => rfl)).2.2.1⟩

/-- C9: one firing of a handler issues at most one remote call: exactly one
for `get_students_btn` and `clear_students_btn`, one or zero for
`main_group`; no callback issues a remote call, so a whole event, however
the server answers, adds exactly that many calls to the log. -/
theorem one_remote_call_per_event (dflt : Row) (server : String → Doc → Outcome) (frm : Frm) :
    ((get_students_btn dflt frm).2.length = 1 ∧
      callCount (get_students_btn dflt frm).1.ops = callCount frm.ops + 1) ∧
    ((clear_students_btn frm).2.length = 1 ∧
      callCount (clear_students_btn frm).1.ops = callCount frm.ops + 1) ∧
    ((main_group frm).2.length = (if frm.doc.main_group.truthy then 1 else 0) ∧
      (main_group frm).2.length ≤ 1 ∧
      callCount (main_group frm).1.ops = callCount frm.ops + (main_group frm).2.length) ∧
    (∀ (r : Response) (f : Frm),
      callCount (main_group_callback r f).ops = callCount f.ops ∧
      callCount (get_students_callback dflt r f).ops = callCount f.ops ∧
      callCount (clear_students_callback r f).ops = callCount f.ops) ∧
    callCount (fire (get_students_btn dflt) server frm).ops = callCount frm.ops + 1 ∧
    callCount (fire clear_students_btn server frm).ops = callCount frm.ops + 1 ∧
    callCount (fire main_group server frm).ops
      = callCount frm.ops + (if frm.doc.main_group.truthy then 1 else 0) := by
  refine ⟨?_, ?_, ?_, ?_, ?_, ?_, ?_⟩
  · simp [get_students_btn, Frm.call, callCount_append, callCount, Op.isCall]
  · simp [clear_students_btn, Frm.call, callCount_append, callCount, Op.isCall]
  · cases ht : frm.doc.main_group.truthy <;>
      simp [main_group, ht, Frm.call, callCount_append, callCount, Op.isCall]
  · intro r f
    refine ⟨?_, get_students_callback_callCount dflt r f, ?_⟩
    · simp [main_group_callback, Frm.refresh_fields, callCount_append, callCount, Op.isCall]
    · simp [clear_students_callback, Frm.refresh_field, callCount_append, callCount, Op.isCall]
  · simp only [fire, get_students_btn, Frm.call, List.foldl_cons, List.foldl_nil, settle]
    cases server "fetch_students" frm.doc with
    | failure => simp [callCount_append, callCount, Op.isCall]
    | success doc r =>
      simp only [get_students_callback_callCount]
      simp [callCount_append, callCount, Op.isCall]
  · simp only [fire, clear_students_btn, Frm.call, List.foldl_cons, List.foldl_nil, settle]
    cases server "clear_students" frm.doc with
    | failure => simp [callCount_append, callCount, Op.isCall]
    | success doc r =>
      simp [clear_students_callback, Frm.refresh_field, callCount_append, callCount, Op.isCall]
  · cases ht : frm.doc.main_group.truthy
    · simp [fire, main_group, ht]
    · simp only [fire, main_group, ht, Frm.call, List.foldl_cons, List.foldl_nil, settle,
        if_true]
      cases server "load_main_group_details" frm.doc with
      | failure => simp [callCount_append, callCount, Op.isCall]
      | success doc r =>
        simp [main_group_callback, Frm.refresh_fields, callCount_append, callCount, Op.isCall]

end SubGroupCreationTool
